import Mathlib

/-!
Verification of the inquiry-browser page of the `codematrics` repository
(`src/app/admin/inquiries/page.tsx`).

The development shallowly embeds the component's state and the operations
the specification talks about:

* the `Inquiry` and `PaginationInfo` records;
* `fetchInquiries`, the request/response handler (401 redirect, non-2xx
  error path, shape-A / shape-B response normalisation, JSON parse
  failure, and the `finally` clause clearing the loading flag);
* the three `useEffect` bodies (debounce, initial load, debounced fetch)
  and their execution order on mount and on a change of the committed
  search term;
* the trailing-debounce timer semantics (500 ms, reset on every input);
* `exportToCSV`, the CSV serialisation of the loaded records.

Machine behaviour that the page delegates to the browser (actual network
transport, DOM, blob download) is represented by its observable effects:
fetch requests and router navigations are accumulated in logs inside the
state, and HTTP responses are explicit inputs.
-/

namespace Codematrics

/-- Status tag of an inquiry; absence in the record means `new`
(source: `status?: 'new' | 'read' | 'replied'`). -/
inductive Status where
  | new
  | read
  | replied
deriving DecidableEq, Repr

/-- String rendering of a status tag, as the source interpolates it. -/
def Status.str : Status → String
  | .new => "new"
  | .read => "read"
  | .replied => "replied"

/-- One contact-form record, embedding the `Inquiry` interface of the
source.  `company` and `status` are the two optional fields. -/
structure Inquiry where
  _id : String
  name : String
  email : String
  company : Option String
  subject : String
  message : String
  timestamp : String
  status : Option Status
deriving DecidableEq, Repr

/-- The `PaginationInfo` interface of the source. -/
structure PaginationInfo where
  currentPage : Nat
  totalPages : Nat
  totalCount : Nat
  hasNextPage : Bool
  hasPreviousPage : Bool
  limit : Nat
deriving DecidableEq, Repr

/-- The body of a 2xx response as the source discriminates it:
shape A (`result.data && result.pagination`), shape B (a bare array,
the `else` branch), or a body whose `response.json()` throws. -/
inductive ResponseBody where
  | shapeA (data : List Inquiry) (pagination : PaginationInfo)
  | shapeB (data : List Inquiry)
  | malformed
deriving DecidableEq, Repr

/-- An HTTP response as observed by `fetchInquiries`: its status code and
(for 2xx responses) its body. -/
structure HttpResponse where
  status : Nat
  body : ResponseBody
deriving DecidableEq, Repr

/-- `response.ok` of the fetch API: status in the range 200–299. -/
def HttpResponse.ok (r : HttpResponse) : Bool :=
  decide (200 ≤ r.status) && decide (r.status < 300)

/-- The component state held in the `useState` hooks, together with the
ref `hasInitialLoaded` and two logs recording the externally visible
effects: fetch requests issued (as `(page, search)` pairs) and router
navigations (`router.push` targets). -/
structure ComponentState where
  inquiries : List Inquiry
  loading : Bool
  error : String
  currentPage : Nat
  searchTerm : String
  debouncedSearchTerm : String
  isSearching : Bool
  pagination : PaginationInfo
  hasInitialLoaded : Bool
  fetchLog : List (Nat × String)
  routerPushes : List String
deriving DecidableEq, Repr

/-- The initial state of the hooks (source lines 51–69). -/
def initialComponentState : ComponentState where
  inquiries := []
  loading := true
  error := ""
  currentPage := 1
  searchTerm := ""
  debouncedSearchTerm := ""
  isSearching := false
  pagination :=
    { currentPage := 1, totalPages := 1, totalCount := 0,
      hasNextPage := false, hasPreviousPage := false, limit := 10 }
  hasInitialLoaded := false
  fetchLog := []
  routerPushes := []

/-- The query parameters built by `fetchInquiries`: `page`, a fixed
`limit` of 10, and `search` only when the term is non-empty
(`...(search && { search })`). -/
def requestParams (page : Nat) (search : String) : List (String × String) :=
  [("page", toString page), ("limit", "10")]
    ++ (if search ≠ "" then [("search", search)] else [])

/-- `fetchInquiries(page, search)` applied to the response the request
produced.  Mirrors the source body: the request is issued (logged) with
`loading` set; a 401 pushes `/admin/login` and returns; a non-ok status
throws, landing in the `catch` that sets the error message; a parsed body
is normalised by shape A / shape B; the `finally` clears `loading` on
every path, including the 401 `return`. -/
def fetchInquiries (page : Nat) (search : String) (response : HttpResponse)
    (s : ComponentState) : ComponentState :=
  let s := { s with loading := true, fetchLog := s.fetchLog ++ [(page, search)] }
  if response.status = 401 then
    { s with routerPushes := s.routerPushes ++ ["/admin/login"], loading := false }
  else if !response.ok then
    { s with error := "Failed to load inquiries", loading := false }
  else
    match response.body with
    | .shapeA data pag =>
        { s with inquiries := data, pagination := pag,
                 currentPage := pag.currentPage, loading := false }
    | .shapeB data =>
        { s with inquiries := data,
                 pagination :=
                   { currentPage := page, totalPages := 1,
                     totalCount := data.length, hasNextPage := false,
                     hasPreviousPage := false, limit := 10 },
                 loading := false }
    | .malformed =>
        { s with error := "Failed to load inquiries", loading := false }

/-- Body of the first `useEffect` (source lines 121–132), the part that
acts on the state synchronously: it raises `isSearching` when the raw
term differs from the committed one.  The timer it schedules is modelled
separately by `debounceRun`. -/
def debounceEffectBody (s : ComponentState) : ComponentState :=
  if s.searchTerm ≠ s.debouncedSearchTerm then { s with isSearching := true } else s

/-- Body of the second `useEffect` (source lines 135–140), the initial
load: when the ref is unset and the committed term is empty, it sets the
ref and issues `fetchInquiries(1, '')` (logged as a request). -/
def initialLoadEffect (s : ComponentState) : ComponentState :=
  if !s.hasInitialLoaded && s.debouncedSearchTerm = "" then
    { s with hasInitialLoaded := true, fetchLog := s.fetchLog ++ [(1, "")] }
  else s

/-- Body of the third `useEffect` (source lines 143–151), the
debounce-driven fetch: it returns early while the ref is unset, otherwise
resets the page to 1 and issues `fetchInquiries(1, debouncedSearchTerm)`
(logged as a request). -/
def debouncedFetchEffect (s : ComponentState) : ComponentState :=
  if !s.hasInitialLoaded then s
  else
    { s with currentPage := 1,
             fetchLog := s.fetchLog ++ [(1, s.debouncedSearchTerm)] }

/-- The effect pass React performs after the first render: every effect
body runs, in declaration order — debounce effect, initial-load effect,
then the debounce-driven fetch effect.  The ref mutation performed by the
initial-load effect is visible to the effect that runs after it in the
same pass. -/
def mountEffects (s : ComponentState) : ComponentState :=
  debouncedFetchEffect (initialLoadEffect (debounceEffectBody s))

/-- The effect pass React performs after `debouncedSearchTerm` changes to
`v`: the effects depending on it re-run in declaration order (the
debounce effect's synchronous part, the initial-load effect, then the
debounce-driven fetch effect). -/
def onDebouncedChange (s : ComponentState) (v : String) : ComponentState :=
  debouncedFetchEffect (initialLoadEffect
    (debounceEffectBody { s with debouncedSearchTerm := v }))

/-- Trailing-debounce semantics of the timer in the first `useEffect`:
each input event `(t, v)` clears the pending timer and schedules a new
one for `t + delay` carrying `v`; a pending timer whose fire time has
been reached before the next event fires and commits its value; the
last pending timer fires once input stops.  Returns the list of
committed values in order. -/
def debounceRun (delay : Nat) (pending : Option (Nat × String)) :
    List (Nat × String) → List String
  | [] =>
    match pending with
    | none => []
    | some (_, v) => [v]
  | (t, v) :: rest =>
    match pending with
    | none => debounceRun delay (some (t + delay, v)) rest
    | some (ft, pv) =>
      if ft ≤ t then pv :: debounceRun delay (some (t + delay, v)) rest
      else debounceRun delay (some (t + delay, v)) rest

/-- The CSV header row of `exportToCSV` (source lines 180–189). -/
def csvHeaders : List String :=
  ["ID", "Name", "Email", "Company", "Subject", "Message", "Status", "Timestamp"]

/-- `message.replace(/"/g, '""')`: a global single-character replacement,
doubling every double-quote character of the string. -/
def replaceAllQuotes (s : String) : String :=
  String.mk (s.data.foldr
    (fun c acc => if c = '"' then '"' :: '"' :: acc else c :: acc) [])

/-- The eight fields of one CSV row, exactly as the source's array
literal builds them: `_id` verbatim, name wrapped in quotes, email
verbatim, `company || ''`, subject wrapped in quotes, message with
quotes doubled then wrapped, `status || 'new'`, timestamp verbatim. -/
def csvFields (inquiry : Inquiry) : List String :=
  [inquiry._id,
   "\"" ++ inquiry.name ++ "\"",
   inquiry.email,
   inquiry.company.getD "",
   "\"" ++ inquiry.subject ++ "\"",
   "\"" ++ replaceAllQuotes inquiry.message ++ "\"",
   (inquiry.status.map Status.str).getD "new",
   inquiry.timestamp]

/-- The CSV text produced by `exportToCSV` (source lines 190–204):
`[headers.join(','), ...rows].join('\n')` with each row
`fields.join(',')`. -/
def exportToCSV (inquiries : List Inquiry) : String :=
  String.intercalate "\n"
    (String.intercalate "," csvHeaders ::
      inquiries.map (fun inquiry => String.intercalate "," (csvFields inquiry)))

/-- The consistency predicate the specification imposes on
`PaginationInfo`: has-previous ⇔ current page > 1 and
has-next ⇔ current page < total pages. -/
def paginationConsistent (p : PaginationInfo) : Prop :=
  (p.hasPreviousPage = true ↔ 1 < p.currentPage)
    ∧ (p.hasNextPage = true ↔ p.currentPage < p.totalPages)

instance (p : PaginationInfo) : Decidable (paginationConsistent p) := by
  unfold paginationConsistent
  infer_instance

/-- A sample inquiry used to instantiate witnesses on concrete data. -/
def sampleInquiry : Inquiry where
  _id := "id1"
  name := "Ada"
  email := "ada@example.com"
  company := none
  subject := "Hello"
  message := "Hi there"
  timestamp := "2024-01-01T00:00:00Z"
  status := none

/-- A component state that has completed its initial load and sits on
page 3, used to instantiate witnesses. -/
def pageThreeState : ComponentState :=
  { initialComponentState with currentPage := 3, hasInitialLoaded := true }

/-- A concrete inquiry whose name and subject contain an embedded
double-quote character. -/
def quoteyInquiry : Inquiry where
  _id := "id2"
  name := "A\"B"
  email := "a@b.c"
  company := none
  subject := "S\"T"
  message := "say \"hi\""
  timestamp := "2024-02-02"
  status := some .read

/-- A concrete inquiry whose email contains an embedded comma and whose
other fields are comma-free. -/
def commaEmailInquiry : Inquiry where
  _id := "id3"
  name := "Bob"
  email := "x,y@z"
  company := some "Acme"
  subject := "Hi"
  message := "Hello"
  timestamp := "2024-03-03"
  status := none

/-! ## Helper lemmas about the fetch paths -/

lemma fetchInquiries_401 (page : Nat) (search : String) (body : ResponseBody)
    (s : ComponentState) :
    fetchInquiries page search ⟨401, body⟩ s =
      { s with loading := false,
               fetchLog := s.fetchLog ++ [(page, search)],
               routerPushes := s.routerPushes ++ ["/admin/login"] } := by
  simp [fetchInquiries]

lemma fetchInquiries_notOk (page : Nat) (search : String) (status : Nat)
    (body : ResponseBody) (s : ComponentState)
    (h401 : status ≠ 401) (hko : ¬ (200 ≤ status ∧ status < 300)) :
    fetchInquiries page search ⟨status, body⟩ s =
      { s with loading := false,
               error := "Failed to load inquiries",
               fetchLog := s.fetchLog ++ [(page, search)] } := by
  have hok : HttpResponse.ok ⟨status, body⟩ = false := by
    simp [HttpResponse.ok]
    omega
  simp [fetchInquiries, h401, hok]

lemma fetchInquiries_2xx_shapeA (page : Nat) (search : String) (status : Nat)
    (data : List Inquiry) (pag : PaginationInfo) (s : ComponentState)
    (h2xx : 200 ≤ status ∧ status < 300) :
    fetchInquiries page search ⟨status, .shapeA data pag⟩ s =
      { s with loading := false,
               fetchLog := s.fetchLog ++ [(page, search)],
               inquiries := data,
               pagination := pag,
               currentPage := pag.currentPage } := by
  have h401 : status ≠ 401 := by omega
  have hok : HttpResponse.ok ⟨status, .shapeA data pag⟩ = true := by
    simp [HttpResponse.ok]
    omega
  simp [fetchInquiries, h401, hok]

lemma fetchInquiries_2xx_shapeB (page : Nat) (search : String) (status : Nat)
    (data : List Inquiry) (s : ComponentState)
    (h2xx : 200 ≤ status ∧ status < 300) :
    fetchInquiries page search ⟨status, .shapeB data⟩ s =
      { s with loading := false,
               fetchLog := s.fetchLog ++ [(page, search)],
               inquiries := data,
               pagination :=
                 { currentPage := page, totalPages := 1,
                   totalCount := data.length, hasNextPage := false,
                   hasPreviousPage := false, limit := 10 } } := by
  have h401 : status ≠ 401 := by omega
  have hok : HttpResponse.ok ⟨status, .shapeB data⟩ = true := by
    simp [HttpResponse.ok]
    omega
  simp [fetchInquiries, h401, hok]

lemma fetchInquiries_2xx_malformed (page : Nat) (search : String) (status : Nat)
    (s : ComponentState) (h2xx : 200 ≤ status ∧ status < 300) :
    fetchInquiries page search ⟨status, .malformed⟩ s =
      { s with loading := false,
               error := "Failed to load inquiries",
               fetchLog := s.fetchLog ++ [(page, search)] } := by
  have h401 : status ≠ 401 := by omega
  have hok : HttpResponse.ok ⟨status, .malformed⟩ = true := by
    simp [HttpResponse.ok]
    omega
  simp [fetchInquiries, h401, hok]

/-! ## C2 -/

/-- C2 counterexample: a successful shape-B fetch issued for page 2 produces
a PaginationInfo with `currentPage = 2` but `hasPreviousPage = false`, so the
derived booleans are not consistent with the page numbers. -/
theorem c2_counterexample :
    ¬ paginationConsistent
        (fetchInquiries 2 "" ⟨200, .shapeB []⟩ initialComponentState).pagination := by
  decide

/-- C2 (amended): shape-A pagination is adopted verbatim (hence consistent
only when the server's values are); shape-B synthesized pagination always
satisfies has-next ⇔ current < total for a requested page ≥ 1, and satisfies
the full consistency (including has-previous ⇔ current > 1) exactly when the
requested page is 1. -/
theorem c2_pagination_consistency (page : Nat) (search : String)
    (data : List Inquiry) (status : Nat) (s : ComponentState)
    (hpage : 1 ≤ page) (h2xx : 200 ≤ status ∧ status < 300) :
    (∀ pag : PaginationInfo,
       (fetchInquiries page search ⟨status, .shapeA data pag⟩ s).pagination = pag)
    ∧ ((fetchInquiries page search ⟨status, .shapeB data⟩ s).pagination.hasNextPage = true
        ↔ (fetchInquiries page search ⟨status, .shapeB data⟩ s).pagination.currentPage
            < (fetchInquiries page search ⟨status, .shapeB data⟩ s).pagination.totalPages)
    ∧ (page = 1 →
        paginationConsistent
          (fetchInquiries page search ⟨status, .shapeB data⟩ s).pagination) := by
  refine ⟨fun pag => ?_, ?_, fun hp => ?_⟩
  · rw [fetchInquiries_2xx_shapeA page search status data pag s h2xx]
  · rw [fetchInquiries_2xx_shapeB page search status data s h2xx]
    simp
    omega
  · subst hp
    rw [fetchInquiries_2xx_shapeB 1 search status data s h2xx]
    constructor <;> simp

/-- Witness for `c2_pagination_consistency` at page 1, status 200. -/
theorem c2_pagination_consistency_witness :
    (1 ≤ 1 ∧ (200 ≤ 200 ∧ 200 < 300))
    ∧ ((∀ pag : PaginationInfo,
         (fetchInquiries 1 "" ⟨200, .shapeA [] pag⟩ initialComponentState).pagination = pag)
       ∧ ((fetchInquiries 1 "" ⟨200, .shapeB []⟩ initialComponentState).pagination.hasNextPage = true
           ↔ (fetchInquiries 1 "" ⟨200, .shapeB []⟩ initialComponentState).pagination.currentPage
               < (fetchInquiries 1 "" ⟨200, .shapeB []⟩ initialComponentState).pagination.totalPages)
       ∧ (1 = 1 →
           paginationConsistent
             (fetchInquiries 1 "" ⟨200, .shapeB []⟩ initialComponentState).pagination)) :=
  ⟨⟨by decide, by decide, by decide⟩,
   c2_pagination_consistency 1 "" [] 200 initialComponentState (by decide)
     ⟨by decide, by decide⟩⟩

/-! ## C3 -/

/-- C3: every 2xx shape-B response is adopted as the list, and the
synthesized pagination reports exactly one page, total count equal to the
array length, and neither a next nor a previous page. -/
theorem c3_shapeB_synthesis (page : Nat) (search : String) (status : Nat)
    (data : List Inquiry) (s : ComponentState)
    (h2xx : 200 ≤ status ∧ status < 300) :
    (fetchInquiries page search ⟨status, .shapeB data⟩ s).inquiries = data
    ∧ (fetchInquiries page search ⟨status, .shapeB data⟩ s).pagination.totalPages = 1
    ∧ (fetchInquiries page search ⟨status, .shapeB data⟩ s).pagination.totalCount = data.length
    ∧ (fetchInquiries page search ⟨status, .shapeB data⟩ s).pagination.hasNextPage = false
    ∧ (fetchInquiries page search ⟨status, .shapeB data⟩ s).pagination.hasPreviousPage = false := by
  rw [fetchInquiries_2xx_shapeB page search status data s h2xx]
  exact ⟨rfl, rfl, rfl, rfl, rfl⟩

/-- Witness for `c3_shapeB_synthesis` on a shape-B body of length 4:
the synthesized pagination reports totalPages = 1, totalCount = 4,
hasNextPage = false. -/
theorem c3_shapeB_synthesis_witness :
    (200 ≤ 200 ∧ 200 < 300)
    ∧ ((fetchInquiries 1 ""
          ⟨200, .shapeB [sampleInquiry, sampleInquiry, sampleInquiry, sampleInquiry]⟩
          initialComponentState).inquiries
          = [sampleInquiry, sampleInquiry, sampleInquiry, sampleInquiry]
       ∧ (fetchInquiries 1 ""
            ⟨200, .shapeB [sampleInquiry, sampleInquiry, sampleInquiry, sampleInquiry]⟩
            initialComponentState).pagination.totalPages = 1
       ∧ (fetchInquiries 1 ""
            ⟨200, .shapeB [sampleInquiry, sampleInquiry, sampleInquiry, sampleInquiry]⟩
            initialComponentState).pagination.totalCount
            = [sampleInquiry, sampleInquiry, sampleInquiry, sampleInquiry].length
       ∧ (fetchInquiries 1 ""
            ⟨200, .shapeB [sampleInquiry, sampleInquiry, sampleInquiry, sampleInquiry]⟩
            initialComponentState).pagination.hasNextPage = false
       ∧ (fetchInquiries 1 ""
            ⟨200, .shapeB [sampleInquiry, sampleInquiry, sampleInquiry, sampleInquiry]⟩
            initialComponentState).pagination.hasPreviousPage = false) :=
  ⟨by decide,
   c3_shapeB_synthesis 1 "" 200
     [sampleInquiry, sampleInquiry, sampleInquiry, sampleInquiry]
     initialComponentState ⟨by decide, by decide⟩⟩

/-! ## C4 -/

/-- C4: a non-2xx status other than 401 sets the generic load-failure
error message, clears the loading flag, and leaves the inquiry list and
the pagination (and everything else except the request log) unchanged. -/
theorem c4_http_error_atomic (page : Nat) (search : String) (status : Nat)
    (body : ResponseBody) (s : ComponentState)
    (h401 : status ≠ 401) (hko : ¬ (200 ≤ status ∧ status < 300)) :
    (fetchInquiries page search ⟨status, body⟩ s).error = "Failed to load inquiries"
    ∧ (fetchInquiries page search ⟨status, body⟩ s).loading = false
    ∧ (fetchInquiries page search ⟨status, body⟩ s).inquiries = s.inquiries
    ∧ (fetchInquiries page search ⟨status, body⟩ s).pagination = s.pagination
    ∧ (fetchInquiries page search ⟨status, body⟩ s).currentPage = s.currentPage := by
  rw [fetchInquiries_notOk page search status body s h401 hko]
  exact ⟨rfl, rfl, rfl, rfl, rfl⟩

/-- Witness for `c4_http_error_atomic` at status 500. -/
theorem c4_http_error_atomic_witness :
    ((500 : Nat) ≠ 401 ∧ ¬ (200 ≤ 500 ∧ 500 < 300))
    ∧ ((fetchInquiries 1 "" ⟨500, .shapeB []⟩ initialComponentState).error
          = "Failed to load inquiries"
       ∧ (fetchInquiries 1 "" ⟨500, .shapeB []⟩ initialComponentState).loading = false
       ∧ (fetchInquiries 1 "" ⟨500, .shapeB []⟩ initialComponentState).inquiries
          = initialComponentState.inquiries
       ∧ (fetchInquiries 1 "" ⟨500, .shapeB []⟩ initialComponentState).pagination
          = initialComponentState.pagination
       ∧ (fetchInquiries 1 "" ⟨500, .shapeB []⟩ initialComponentState).currentPage
          = initialComponentState.currentPage) :=
  ⟨⟨by decide, by decide⟩,
   c4_http_error_atomic 1 "" 500 (.shapeB []) initialComponentState
     (by decide) (by decide)⟩

/-! ## C5 -/

/-- C5: a 401 response pushes the login path onto the router, leaves the
inquiry list, pagination and error flag untouched, and aborts response
processing. -/
theorem c5_unauthorized_redirect (page : Nat) (search : String)
    (body : ResponseBody) (s : ComponentState) :
    (fetchInquiries page search ⟨401, body⟩ s).routerPushes
        = s.routerPushes ++ ["/admin/login"]
    ∧ (fetchInquiries page search ⟨401, body⟩ s).inquiries = s.inquiries
    ∧ (fetchInquiries page search ⟨401, body⟩ s).pagination = s.pagination
    ∧ (fetchInquiries page search ⟨401, body⟩ s).currentPage = s.currentPage
    ∧ (fetchInquiries page search ⟨401, body⟩ s).error = s.error := by
  rw [fetchInquiries_401 page search body s]
  exact ⟨rfl, rfl, rfl, rfl, rfl⟩

/-! ## C10 -/

/-- C10: a 2xx response whose body fails to parse as JSON takes the same
path as a transport error: the generic error message is set, loading is
cleared, and the inquiry list and pagination are left unchanged. -/
theorem c10_malformed_body (page : Nat) (search : String) (status : Nat)
    (s : ComponentState) (h2xx : 200 ≤ status ∧ status < 300) :
    (fetchInquiries page search ⟨status, .malformed⟩ s).error
        = "Failed to load inquiries"
    ∧ (fetchInquiries page search ⟨status, .malformed⟩ s).loading = false
    ∧ (fetchInquiries page search ⟨status, .malformed⟩ s).inquiries = s.inquiries
    ∧ (fetchInquiries page search ⟨status, .malformed⟩ s).pagination = s.pagination
    ∧ (fetchInquiries page search ⟨status, .malformed⟩ s).currentPage = s.currentPage := by
  rw [fetchInquiries_2xx_malformed page search status s h2xx]
  exact ⟨rfl, rfl, rfl, rfl, rfl⟩

/-- Witness for `c10_malformed_body` at status 200. -/
theorem c10_malformed_body_witness :
    (200 ≤ 200 ∧ 200 < 300)
    ∧ ((fetchInquiries 1 "" ⟨200, .malformed⟩ initialComponentState).error
          = "Failed to load inquiries"
       ∧ (fetchInquiries 1 "" ⟨200, .malformed⟩ initialComponentState).loading = false
       ∧ (fetchInquiries 1 "" ⟨200, .malformed⟩ initialComponentState).inquiries
          = initialComponentState.inquiries
       ∧ (fetchInquiries 1 "" ⟨200, .malformed⟩ initialComponentState).pagination
          = initialComponentState.pagination
       ∧ (fetchInquiries 1 "" ⟨200, .malformed⟩ initialComponentState).currentPage
          = initialComponentState.currentPage) :=
  ⟨by decide,
   c10_malformed_body 1 "" 200 initialComponentState ⟨by decide, by decide⟩⟩

/-! ## C1 -/

/-- C1 (bug evaluation): on mount, the initial-load effect sets the
`hasInitialLoaded` ref before the debounce-driven fetch effect runs in the
same effect pass, so the latter's early-return guard does not fire and the
program issues two fetches of (page 1, empty search) instead of one. -/
theorem c1_mount_issues_two_fetches :
    (mountEffects initialComponentState).fetchLog = [(1, ""), (1, "")]
    ∧ (mountEffects initialComponentState).fetchLog.length ≠ 1 := by
  decide

/-! ## C6 -/

/-- Shared description of the effect pass after the committed search term
changes: once the initial load has happened, it fetches (1, new term) and
resets the current page to 1. -/
lemma onDebouncedChange_spec (s : ComponentState) (v : String)
    (h : s.hasInitialLoaded = true) :
    (onDebouncedChange s v).fetchLog = s.fetchLog ++ [(1, v)]
    ∧ (onDebouncedChange s v).currentPage = 1 := by
  unfold onDebouncedChange debounceEffectBody initialLoadEffect debouncedFetchEffect
  split <;> simp [h]

/-- C6: after startup, every change of the committed search term issues the
next fetch with page 1 and the new term, and resets the current page to 1,
regardless of the page the state was on. -/
theorem c6_search_change_resets_page (s : ComponentState) (v : String)
    (h : s.hasInitialLoaded = true) :
    (onDebouncedChange s v).fetchLog = s.fetchLog ++ [(1, v)]
    ∧ (onDebouncedChange s v).currentPage = 1 :=
  onDebouncedChange_spec s v h

/-- Witness for `c6_search_change_resets_page`: a state sitting on page 3
fetches (1, "abc") when the committed term becomes "abc". -/
theorem c6_search_change_resets_page_witness :
    pageThreeState.hasInitialLoaded = true
    ∧ ((onDebouncedChange pageThreeState "abc").fetchLog
          = pageThreeState.fetchLog ++ [(1, "abc")]
       ∧ (onDebouncedChange pageThreeState "abc").currentPage = 1) :=
  ⟨rfl, c6_search_change_resets_page pageThreeState "abc" rfl⟩

/-! ## C7 -/

/-- While a timer is still pending (its fire time lies after the next
input event) and all later events arrive within the quiet period of their
predecessor, the pending value and every intermediate value are discarded:
only the final value is ever committed. -/
lemma debounceRun_superseded :
    ∀ (es : List (Nat × String)) (ft : Nat) (pv : String),
      List.Chain' (fun a b => b.1 < a.1 + 500) es →
      (∀ p ∈ es.head?, p.1 < ft) →
      debounceRun 500 (some (ft, pv)) es = [(es.map Prod.snd).getLastD pv]
  | [], _, _, _, _ => rfl
  | (t, v) :: rest, ft, pv, hc, hhd => by
    have ht : t < ft := hhd (t, v) rfl
    have hc' := List.chain'_cons'.mp hc
    have hstep : debounceRun 500 (some (ft, pv)) ((t, v) :: rest)
        = if ft ≤ t then pv :: debounceRun 500 (some (t + 500, v)) rest
          else debounceRun 500 (some (t + 500, v)) rest := rfl
    rw [hstep, if_neg (by omega : ¬ ft ≤ t),
        debounceRun_superseded rest (t + 500) v hc'.2
          (fun p hp => by have := hc'.1 p hp; omega)]
    rw [List.map_cons, List.getLastD_cons]

/-- The final value of a non-empty event list, seen through
`map Prod.snd` and `getLastD`. -/
lemma getLastD_map_snd :
    ∀ (rest : List (Nat × String)) (a : Nat × String),
      (rest.map Prod.snd).getLastD a.2
        = ((a :: rest).getLast (List.cons_ne_nil a rest)).2
  | [], _ => rfl
  | b :: l, a => by
    rw [List.map_cons, List.getLastD_cons, getLastD_map_snd l b]
    rfl

/-- C7: for any non-empty sequence of raw search-input events whose gaps
are all shorter than the 500-unit quiet period, only the final value is
committed, and folding the commits through the debounce-driven effect pass
issues exactly one fetch, for (page 1, final value). -/
theorem c7_rapid_input_commits_only_last (es : List (Nat × String))
    (h : es ≠ []) (hrapid : List.Chain' (fun a b => b.1 < a.1 + 500) es) :
    debounceRun 500 none es = [(es.getLast h).2]
    ∧ ∀ s : ComponentState, s.hasInitialLoaded = true →
        ((debounceRun 500 none es).foldl onDebouncedChange s).fetchLog
          = s.fetchLog ++ [(1, (es.getLast h).2)] := by
  match es, h with
  | (t, v) :: rest, _ =>
    have hc' := List.chain'_cons'.mp hrapid
    have hfirst : debounceRun 500 none ((t, v) :: rest)
        = debounceRun 500 (some (t + 500, v)) rest := rfl
    have hrun : debounceRun 500 none ((t, v) :: rest)
        = [(((t, v) :: rest).getLast (List.cons_ne_nil (t, v) rest)).2] := by
      rw [hfirst,
          debounceRun_superseded rest (t + 500) v hc'.2
            (fun p hp => by have := hc'.1 p hp; omega),
          getLastD_map_snd rest (t, v)]
    refine ⟨hrun, fun s hs => ?_⟩
    rw [hrun]
    simpa using (onDebouncedChange_spec s _ hs).1

/-- The three-keystroke example sequence arrives with gaps of 100 and 200
time units, both shorter than the quiet period. -/
lemma rapidChainExample :
    List.Chain' (fun a b => b.1 < a.1 + 500)
      [((0 : Nat), "a"), (100, "ab"), (300, "abc")] := by
  refine List.chain'_cons'.mpr ⟨?_, List.chain'_cons'.mpr ⟨?_, List.chain'_singleton _⟩⟩
  · intro y hy
    simp at hy
    subst hy
    norm_num
  · intro y hy
    simp at hy
    subst hy
    norm_num

/-- Witness for `c7_rapid_input_commits_only_last`: three keystrokes 100
and 200 units apart commit only "abc" and issue the single fetch
(1, "abc"). -/
theorem c7_rapid_input_commits_only_last_witness :
    (([((0 : Nat), "a"), (100, "ab"), (300, "abc")] : List (Nat × String)) ≠ []
      ∧ List.Chain' (fun a b => b.1 < a.1 + 500)
          [((0 : Nat), "a"), (100, "ab"), (300, "abc")])
    ∧ debounceRun 500 none [((0 : Nat), "a"), (100, "ab"), (300, "abc")] = ["abc"]
    ∧ ((debounceRun 500 none [((0 : Nat), "a"), (100, "ab"), (300, "abc")]).foldl
          onDebouncedChange { initialComponentState with hasInitialLoaded := true }).fetchLog
        = ({ initialComponentState with hasInitialLoaded := true } : ComponentState).fetchLog
            ++ [(1, "abc")] := by
  have h := c7_rapid_input_commits_only_last
    [((0 : Nat), "a"), (100, "ab"), (300, "abc")] (by decide) rapidChainExample
  exact ⟨⟨by decide, rapidChainExample⟩, h.1, h.2 _ rfl⟩

/-! ## C8 -/

/-- Character-level description of `message.replace(/"/g, '""')`: each
double-quote character is mapped to two of them, every other character is
kept. -/
lemma replaceAllQuotes_data (s : String) :
    (replaceAllQuotes s).data
      = s.data.flatMap (fun c => if c = '"' then ['"', '"'] else [c]) := by
  show s.data.foldr (fun c acc => if c = '"' then '"' :: '"' :: acc else c :: acc) []
      = s.data.flatMap (fun c => if c = '"' then ['"', '"'] else [c])
  induction s.data with
  | nil => rfl
  | cons c l ih =>
    by_cases hc : c = '"' <;> simp [hc, ih]

/-- Doubling every quote exactly doubles the number of quote characters. -/
lemma replaceAllQuotes_count (s : String) :
    (replaceAllQuotes s).data.count '"' = 2 * s.data.count '"' := by
  rw [replaceAllQuotes_data]
  induction s.data with
  | nil => rfl
  | cons c l ih =>
    by_cases hc : c = '"'
    · simp [hc, List.count_cons, ih]
      omega
    · simp [hc, List.count_cons, ih]

/-- C8: the CSV export emits the header row followed by one row per
loaded record; each row joins, in order, the id, the quote-wrapped name,
the email, the company or the empty string, the quote-wrapped subject,
the quote-wrapped message with every embedded double quote doubled, the
status defaulting to "new", and the timestamp. -/
theorem c8_csv_format (l : List Inquiry) :
    exportToCSV l
      = String.intercalate "\n"
          (String.intercalate "," csvHeaders ::
            l.map (fun i => String.intercalate "," (csvFields i)))
    ∧ (String.intercalate "," csvHeaders ::
        l.map (fun i => String.intercalate "," (csvFields i))).length = l.length + 1
    ∧ (∀ i : Inquiry,
        csvFields i
          = [i._id, "\"" ++ i.name ++ "\"", i.email, i.company.getD "",
             "\"" ++ i.subject ++ "\"", "\"" ++ replaceAllQuotes i.message ++ "\"",
             (i.status.map Status.str).getD "new", i.timestamp])
    ∧ (∀ s : String,
        (replaceAllQuotes s).data
          = s.data.flatMap (fun c => if c = '"' then ['"', '"'] else [c])) := by
  refine ⟨rfl, by simp, fun i => rfl, replaceAllQuotes_data⟩

/-! ## C9 -/

/-- C9: in a CSV row only the message field has its embedded double
quotes doubled — the name and subject fields gain exactly the two
wrapping quotes and keep embedded quotes verbatim, while the message
field's embedded quote count is doubled; the email, company, status and
timestamp fields are emitted unquoted and verbatim, so a record whose
email embeds a comma yields a row with 8 separators (9 naive columns)
where a comma-free record yields 7. -/
theorem c9_partial_escaping :
    (∀ i : Inquiry,
       ((csvFields i).getD 1 "").data.count '"' = i.name.data.count '"' + 2
       ∧ ((csvFields i).getD 4 "").data.count '"' = i.subject.data.count '"' + 2
       ∧ ((csvFields i).getD 5 "").data.count '"' = 2 * i.message.data.count '"' + 2
       ∧ (csvFields i).getD 2 "" = i.email
       ∧ (csvFields i).getD 3 "" = i.company.getD ""
       ∧ (csvFields i).getD 6 "" = (i.status.map Status.str).getD "new"
       ∧ (csvFields i).getD 7 "" = i.timestamp)
    ∧ (csvFields quoteyInquiry).getD 1 "" = "\"A\"B\""
    ∧ (String.intercalate "," (csvFields commaEmailInquiry)).data.count ',' = 8
    ∧ (String.intercalate "," (csvFields sampleInquiry)).data.count ',' = 7 := by
  refine ⟨fun i => ?_, by decide, by decide, by decide⟩
  have hname : (csvFields i).getD 1 "" = "\"" ++ i.name ++ "\"" := rfl
  have hsubj : (csvFields i).getD 4 "" = "\"" ++ i.subject ++ "\"" := rfl
  have hmsg : (csvFields i).getD 5 "" = "\"" ++ replaceAllQuotes i.message ++ "\"" := rfl
  have hwrap : ∀ s : String, ("\"" ++ s ++ "\"").data = '"' :: s.data ++ ['"'] :=
    fun s => rfl
  refine ⟨?_, ?_, ?_, rfl, rfl, rfl, rfl⟩
  · rw [hname, hwrap]
    simp [List.count_cons, List.count_append]
  · rw [hsubj, hwrap]
    simp [List.count_cons, List.count_append]
  · rw [hmsg, hwrap]
    simp [List.count_cons, List.count_append, replaceAllQuotes_count]

end Codematrics
